import Mathlib

/-!
Verification of the postinit logger (package `logger`, demo packages `prog`
and `main`): a deferred-dispatch logger that queues messages arriving before
a delayed one-time Init and replays them, in FIFO order, once Init runs.

The embedding follows src/logger/logger.go line by line. Package-level
mutable state (the Logger value `logger`, the slice `chann` of buffered
one-shot channels, and the console output produced by fmt) becomes an
explicit `LoggerState` threaded through the operations. A Go channel of
capacity 1 is a buffer list plus a closed flag; an operation that would
block forever or panic returns `none`.
-/

namespace Postinit

/-- Payload record queued for a deferred log call (struct logDetail, logger.go). -/
structure logDetail where
  message : String
deriving DecidableEq

/-- The logger singleton value (struct Logger, logger.go); the code treats a
non-empty instance string as the initialized state. -/
structure Logger where
  «instance» : String
deriving DecidableEq

/-- A Go channel of capacity 1 carrying logDetail: its buffered contents (at
most one element) and whether it has been closed. -/
structure Chan where
  buf : List logDetail
  closed : Bool
deriving DecidableEq

/-- The package-level state of logger.go: the global `logger` value, the
global slice `chann`, and the console output printed so far (fmt calls). -/
structure LoggerState where
  logger : Logger
  chann : List Chan
  output : List String
deriving DecidableEq

/-- State at process start: zero-valued Logger, empty channel slice, nothing printed. -/
def initState : LoggerState :=
  { logger := { «instance» := "" }, chann := [], output := [] }

/-- The readiness check used throughout logger.go: len(logger.instance) > 0. -/
def isReady (s : LoggerState) : Bool :=
  s.logger.«instance».length > 0

/-- The line printed by Log for a message (fmt.Printf in logger.go line 39). -/
def printLine (msg : String) : String :=
  "got message to log `" ++ msg ++ "`"

/-- The error returned by Log when the logger is not initialized. -/
def notInitErr : String := "logger instance not initialized"

/-- Log (logger.go 37-44): if the instance is set, print the message and
return nil; otherwise return the NotInitialized error and leave the state
untouched. Result is (error option, new state). -/
def Log (msg : String) (s : LoggerState) : Option String × LoggerState :=
  if isReady s then
    (none, { s with output := s.output ++ [printLine msg] })
  else
    (some notInitErr, s)

/-- Send on a capacity-1 channel: panics (none) if the channel is closed,
blocks (none) if the buffer is full, otherwise appends the value. -/
def chanSend (ld : logDetail) (c : Chan) : Option Chan :=
  if c.closed then none
  else if c.buf.length < 1 then some { c with buf := c.buf ++ [ld] }
  else none

/-- Receive on a channel: takes the first buffered value; on an empty closed
channel yields the zero value; on an empty open channel blocks (none). -/
def chanRecv (c : Chan) : Option (logDetail × Chan) :=
  match c.buf with
  | v :: rest => some (v, { c with buf := rest })
  | [] => if c.closed then some ({ message := "" }, c) else none

/-- Close a channel: panics (none) if it is already closed. -/
def chanClose (c : Chan) : Option Chan :=
  if c.closed then none else some { c with closed := true }

/-- SafeLog (logger.go 46-58): if initialized, delegate to Log; otherwise wrap
the message in a logDetail, send it into a fresh buffered channel of capacity
1, append that channel to chann, and return nil. A none result means the call
would block or panic. -/
def SafeLog (msg : String) (s : LoggerState) : Option (Option String × LoggerState) :=
  if isReady s then some (Log msg s)
  else
    match chanSend { message := msg } { buf := [], closed := false } with
    | none => none
    | some ch => some (none, { s with chann := s.chann ++ [ch] })

/-- The drain loop of Init (logger.go 29-33): for each queued channel receive
its value, Log it (the returned error is discarded by the code), and close
the channel. Returns the updated channels and state; none if any receive
would block or any close would panic. -/
def drainLoop : List Chan → LoggerState → Option (List Chan × LoggerState)
  | [], s => some ([], s)
  | c :: rest, s =>
    match chanRecv c with
    | none => none
    | some (val, c1) =>
      match chanClose c1 with
      | none => none
      | some c2 =>
        match drainLoop rest (Log val.message s).2 with
        | none => none
        | some (cs, s2) => some (c2 :: cs, s2)

/-- Init (logger.go 22-35): after the artificial delay it prints "Init", sets
the logger instance (the readiness transition), then drains every queued
channel in slice order. The WaitGroup bookkeeping is process glue. -/
def Init (s : LoggerState) : Option LoggerState :=
  let s1 : LoggerState := { s with output := s.output ++ ["Init"] }
  let s2 : LoggerState := { s1 with logger := { «instance» := "Logger" } }
  match drainLoop s2.chann s2 with
  | none => none
  | some (cs, s3) => some { s3 with chann := cs }

/-- A sequence of SafeLog calls, in order; none if any call would block. -/
def runSafeLogs : List String → LoggerState → Option LoggerState
  | [], s => some s
  | m :: rest, s =>
    match SafeLog m s with
    | none => none
    | some (_, s1) => runSafeLogs rest s1

/-- The channel SafeLog enqueues for a message: fresh capacity-1 channel
holding exactly that payload. -/
def mkChan (msg : String) : Chan :=
  { buf := [{ message := msg }], closed := false }

/-- A drained channel: emptied and closed by Init. -/
def closedChan : Chan :=
  { buf := [], closed := true }

/-- The state right after Init runs from a fresh start with an empty queue. -/
def readyState : LoggerState :=
  { logger := { «instance» := "Logger" }, chann := [], output := ["Init"] }

/-- Caller1 (prog package): calls Log directly, assuming the logger is initialized. -/
def Caller1 (msg : String) (s : LoggerState) : Option String × LoggerState :=
  Log msg s

/-- Caller2 (prog package): calls SafeLog, queueing when not initialized. -/
def Caller2 (msg : String) (s : LoggerState) : Option (Option String × LoggerState) :=
  SafeLog msg s

/-- One iteration of the loop in main.go: Caller1 then Caller2 with the
fmt.Sprintf-formatted messages for index i. -/
def mainLoopStep (i : Nat) (s : LoggerState) :
    Option (Option String × Option String × LoggerState) :=
  let r1 := Caller1 ("func: caller1 value-" ++ toString i) s
  match Caller2 ("func: caller2 value-" ++ toString i) r1.2 with
  | none => none
  | some (e2, s2) => some (r1.1, e2, s2)

/-- The loop of main.go over the given indices, collecting the Caller1 and
Caller2 results in order. -/
def mainLoop : List Nat → LoggerState → Option (List (Option String) × List (Option String) × LoggerState)
  | [], s => some ([], [], s)
  | i :: rest, s =>
    match mainLoopStep i s with
    | none => none
    | some (e1, e2, s1) =>
      match mainLoop rest s1 with
      | none => none
      | some (l1, l2, s2) => some (e1 :: l1, e2 :: l2, s2)

/-- The startup scenario of main.go in the interleaving the 5-second sleep
produces: the five loop iterations (i+1 = 1..5) complete before Init runs. -/
def mainRun : Option (List (Option String) × List (Option String) × LoggerState) :=
  match mainLoop [1, 2, 3, 4, 5] initState with
  | none => none
  | some (l1, l2, s) =>
    match Init s with
    | none => none
    | some s2 => some (l1, l2, s2)

/-- Every channel in the slice is as SafeLog left it: exactly one buffered
value and not yet closed. Holds for every state reachable before Init. -/
def goodChans (s : LoggerState) : Prop :=
  ∀ c ∈ s.chann, c.buf.length = 1 ∧ c.closed = false

instance (s : LoggerState) : Decidable (goodChans s) := by
  unfold goodChans; infer_instance

/-- The payload a queued channel carries (its single buffered message). -/
def chanMsg (c : Chan) : String :=
  match c.buf with
  | v :: _ => v.message
  | [] => ""

/-- The final state of the main.go scenario: logger set, the five drained
channels closed, and the console output the README records. -/
def mainFinalState : LoggerState :=
  { logger := { «instance» := "Logger" },
    chann := List.replicate 5 closedChan,
    output := "Init" ::
      ["func: caller2 value-1", "func: caller2 value-2", "func: caller2 value-3",
       "func: caller2 value-4", "func: caller2 value-5"].map printLine }

/-- Shared-memory actions of two concurrent SafeLog enqueues A and B. The Go
append `chann = append(chann, ch)` (logger.go 56) is, at the memory level, a
read of the global slice followed by a write of the extended slice; logger.go
takes no lock and uses no atomic operation around either access, so the two
accesses of different goroutines may interleave. -/
inductive RaceAction where
  | readA | writeA | readB | writeB
deriving DecidableEq

/-- Interleaving state for two concurrent enqueues: the global chann plus the
local snapshot each goroutine holds (none before that goroutine reads). -/
structure RaceState where
  chann : List Chan
  localA : Option (List Chan)
  localB : Option (List Chan)
deriving DecidableEq

/-- One atomic access of the unsynchronized `chann = append(chann, ch)`
performed by goroutine A enqueueing message mA or goroutine B enqueueing mB:
a read takes a snapshot of the global slice, a write stores the snapshot
extended with the fresh channel back into the global. -/
def raceStep (mA mB : String) (s : RaceState) : RaceAction → RaceState
  | RaceAction.readA => { s with localA := some s.chann }
  | RaceAction.writeA =>
    match s.localA with
    | some l => { s with chann := l ++ [mkChan mA] }
    | none => s
  | RaceAction.readB => { s with localB := some s.chann }
  | RaceAction.writeB =>
    match s.localB with
    | some l => { s with chann := l ++ [mkChan mB] }
    | none => s

/-- Run an interleaving of the two enqueues from an empty queue. -/
def raceRun (mA mB : String) (acts : List RaceAction) : RaceState :=
  acts.foldl (raceStep mA mB) { chann := [], localA := none, localB := none }

/-! Helper lemmas about the individual operations. -/

lemma Log_logger (msg : String) (s : LoggerState) : (Log msg s).2.logger = s.logger := by
  unfold Log; split <;> rfl

lemma Log_chann (msg : String) (s : LoggerState) : (Log msg s).2.chann = s.chann := by
  unfold Log; split <;> rfl

lemma isReady_Log (msg : String) (s : LoggerState) : isReady (Log msg s).2 = isReady s := by
  unfold isReady; rw [Log_logger]

lemma Log_ready (msg : String) (s : LoggerState) (h : isReady s = true) :
    Log msg s = (none, { s with output := s.output ++ [printLine msg] }) := by
  unfold Log; rw [h]; simp

lemma Log_not_ready (msg : String) (s : LoggerState) (h : isReady s = false) :
    Log msg s = (some notInitErr, s) := by
  unfold Log; rw [h]; simp

lemma SafeLog_ready (msg : String) (s : LoggerState) (h : isReady s = true) :
    SafeLog msg s = some (Log msg s) := by
  unfold SafeLog; rw [h]; simp

lemma SafeLog_not_ready (msg : String) (s : LoggerState) (h : isReady s = false) :
    SafeLog msg s = some (none, { s with chann := s.chann ++ [mkChan msg] }) := by
  unfold SafeLog chanSend; rw [h]; simp [mkChan]

lemma isReady_mk_chann (s : LoggerState) (l : List Chan) :
    isReady { s with chann := l } = isReady s := rfl

lemma runSafeLogs_not_ready (msgs : List String) : ∀ s : LoggerState, isReady s = false →
    runSafeLogs msgs s = some { s with chann := s.chann ++ msgs.map mkChan } := by
  induction msgs with
  | nil => intro s h; simp [runSafeLogs]
  | cons m rest ih =>
    intro s h
    rw [runSafeLogs, SafeLog_not_ready m s h]
    dsimp only
    rw [ih { s with chann := s.chann ++ [mkChan m] } h]
    simp

lemma mkChan_good (m : String) : (mkChan m).buf.length = 1 ∧ (mkChan m).closed = false :=
  ⟨rfl, rfl⟩

lemma chanMsg_mkChan (m : String) : chanMsg (mkChan m) = m := rfl

lemma drainLoop_good_ready (cs : List Chan) : ∀ s : LoggerState, isReady s = true →
    (∀ c ∈ cs, c.buf.length = 1 ∧ c.closed = false) →
    drainLoop cs s =
      some (cs.map (fun _ => closedChan),
            { s with output := s.output ++ cs.map (fun c => printLine (chanMsg c)) }) := by
  induction cs with
  | nil => intro s h _; simp [drainLoop]
  | cons c rest ih =>
    intro s h hgood
    obtain ⟨hlen, hopen⟩ := hgood c (by simp)
    obtain ⟨v, hbuf⟩ : ∃ v, c.buf = [v] := by
      cases hb : c.buf with
      | nil => rw [hb] at hlen; simp at hlen
      | cons x xs =>
        cases xs with
        | nil => exact ⟨x, rfl⟩
        | cons y ys => rw [hb] at hlen; simp at hlen
    obtain ⟨cbuf, cclosed⟩ := c
    simp only at hbuf hopen
    subst hbuf hopen
    rw [drainLoop]
    have hready2 : isReady (Log v.message s).2 = true := by rw [isReady_Log]; exact h
    have hgoodrest : ∀ x ∈ rest, x.buf.length = 1 ∧ x.closed = false :=
      fun x hx => hgood x (by simp [hx])
    rw [show chanRecv ⟨[v], false⟩ = some (v, ⟨[], false⟩) from rfl]
    dsimp only
    rw [show chanClose ⟨[], false⟩ = some closedChan from rfl]
    dsimp only
    rw [ih (Log v.message s).2 hready2 hgoodrest, Log_ready v.message s h]
    simp [chanMsg]

lemma drainLoop_logger (cs : List Chan) : ∀ s cs' s', drainLoop cs s = some (cs', s') →
    s'.logger = s.logger := by
  induction cs with
  | nil => intro s cs' s' h; rw [drainLoop] at h; simp at h; rw [← h.2]
  | cons c rest ih =>
    intro s cs' s' h
    rw [drainLoop] at h
    split at h
    · exact absurd h (by simp)
    next val c1 _ =>
      split at h
      · exact absurd h (by simp)
      next c2 _ =>
        split at h
        · exact absurd h (by simp)
        next cs2 s2 heq3 =>
          simp at h
          rw [← h.2, ih (Log val.message s).2 cs2 s2 heq3, Log_logger]

lemma Init_mkChans (msgs : List String) (s : LoggerState) (h : s.chann = msgs.map mkChan) :
    Init s = some { logger := { «instance» := "Logger" },
                    chann := msgs.map (fun _ => closedChan),
                    output := (s.output ++ ["Init"]) ++ msgs.map printLine } := by
  have hgood : ∀ c ∈ msgs.map mkChan, c.buf.length = 1 ∧ c.closed = false := by
    intro c hc
    obtain ⟨m, _, rfl⟩ := List.mem_map.mp hc
    exact mkChan_good m
  obtain ⟨slog, schann, sout⟩ := s
  simp only at h
  subst h
  have hd := drainLoop_good_ready (msgs.map mkChan)
      { logger := { «instance» := "Logger" }, chann := msgs.map mkChan,
        output := sout ++ ["Init"] } rfl hgood
  unfold Init
  dsimp only
  rw [hd]
  dsimp only
  simp [List.map_map, chanMsg_mkChan, Function.comp_def]

/-! Theorems settling the claims. -/

/-- C1: for every sequence of N SafeLog calls made from the uninitialized
start state, the calls all succeed (queueing N channels), Init then completes
and the underlying print action runs exactly N times, once per queued payload,
in the order the SafeLog calls were made: the final output is the Init line
followed by exactly the N log lines in FIFO order, with no entry lost and
none replayed twice. -/
theorem deferred_replay_exact_fifo (msgs : List String) :
    ∃ s1 s2 : LoggerState,
      runSafeLogs msgs initState = some s1 ∧ Init s1 = some s2 ∧
      s2.output = "Init" :: msgs.map printLine ∧
      s2.chann.length = msgs.length := by
  have h1 : runSafeLogs msgs initState =
      some { initState with chann := msgs.map mkChan } := by
    simpa [initState] using runSafeLogs_not_ready msgs initState rfl
  have h2 := Init_mkChans msgs { initState with chann := msgs.map mkChan } rfl
  exact ⟨_, _, h1, h2, by simp [initState], by simp⟩

/-- C2: every Log call made while the readiness check is false returns the
NotInitialized error and leaves the state exactly as it was: nothing is
printed and nothing else is modified. -/
theorem strict_not_ready_fails_no_effect (msg : String) (s : LoggerState)
    (h : isReady s = false) :
    Log msg s = (some notInitErr, s) :=
  Log_not_ready msg s h

/-- Witness for C2 at the start state. -/
theorem strict_not_ready_fails_no_effect_witness :
    isReady initState = false ∧ Log "boot" initState = (some notInitErr, initState) :=
  ⟨rfl, strict_not_ready_fails_no_effect "boot" initState rfl⟩

/-- C3: when the service is ready, SafeLog behaves identically to Log: it
returns exactly the outcome of the inline Log call (not an enqueue
acknowledgment) and enqueues nothing (the channel slice is unchanged). -/
theorem deferred_ready_equals_strict (msg : String) (s : LoggerState)
    (h : isReady s = true) :
    SafeLog msg s = some (Log msg s) ∧ (Log msg s).2.chann = s.chann :=
  ⟨SafeLog_ready msg s h, Log_chann msg s⟩

/-- Witness for C3 at the post-Init state. -/
theorem deferred_ready_equals_strict_witness :
    isReady readyState = true ∧
      (SafeLog "m" readyState = some (Log "m" readyState) ∧
       (Log "m" readyState).2.chann = readyState.chann) :=
  ⟨rfl, deferred_ready_equals_strict "m" readyState rfl⟩

/-- C4: a SafeLog call made while not ready wraps the payload in a logDetail,
appends a fresh capacity-1 channel holding it to chann, and returns success
(nil error) without printing anything or touching any other state. -/
theorem deferred_not_ready_enqueues_nil (msg : String) (s : LoggerState)
    (h : isReady s = false) :
    SafeLog msg s = some (none, { s with chann := s.chann ++ [mkChan msg] }) :=
  SafeLog_not_ready msg s h

/-- Witness for C4 at the start state. -/
theorem deferred_not_ready_enqueues_nil_witness :
    isReady initState = false ∧
      SafeLog "m" initState =
        some (none, { initState with chann := initState.chann ++ [mkChan "m"] }) :=
  ⟨rfl, deferred_not_ready_enqueues_nil "m" initState rfl⟩

/-- C5: readiness transitions at most once, from not-ready to ready, and never
reverts: it is false at the start state, Log and SafeLog never change it, and
whenever Init completes it is true (the replay inside Init cannot unset it). -/
theorem readiness_monotone :
    isReady initState = false ∧
    (∀ msg s, isReady (Log msg s).2 = isReady s) ∧
    (∀ msg s r s', SafeLog msg s = some (r, s') → isReady s' = isReady s) ∧
    (∀ s s', Init s = some s' → isReady s' = true) := by
  refine ⟨rfl, isReady_Log, ?_, ?_⟩
  · intro msg s r s' h
    by_cases hr : isReady s = true
    · rw [SafeLog_ready msg s hr] at h
      have hp : Log msg s = (r, s') := Option.some.inj h
      have : s' = (Log msg s).2 := by rw [hp]
      rw [this, isReady_Log]
    · have hr' : isReady s = false := by simpa using hr
      rw [SafeLog_not_ready msg s hr'] at h
      simp only [Option.some.injEq, Prod.mk.injEq] at h
      rw [← h.2]
      rfl
  · intro s s' h
    unfold Init at h
    dsimp only at h
    split at h
    · exact absurd h (by simp)
    next cs s3 heq =>
      have hlog : s3.logger = { «instance» := "Logger" } := by
        simpa using drainLoop_logger _ _ _ _ heq
      have hs' : s' = { s3 with chann := cs } := by
        have := Option.some.inj h
        rw [← this]
      rw [hs']
      unfold isReady
      dsimp only
      rw [hlog]
      rfl

/-- Witness for C5: the start state is not ready and the state after Init is. -/
theorem readiness_monotone_witness :
    isReady initState = false ∧ isReady readyState = true :=
  ⟨readiness_monotone.1, readiness_monotone.2.2.2 initState readyState (by decide)⟩

/-- C6: in the startup scenario of main.go (five Caller1/Caller2 iterations
completing before the 5-second Init), the five Log calls all return the
NotInitialized error, the five SafeLog calls all return success immediately,
and after Init the print action runs exactly five times with the five caller2
payloads in original call order, exactly as the README debug output records. -/
theorem main_scenario_concrete :
    mainRun = some (List.replicate 5 (some notInitErr),
                    List.replicate 5 (none : Option String),
                    mainFinalState) := by
  decide

/-- C7: a payload queued by SafeLog while not ready earns its caller an
immediate nil, fixed independently of anything that happens later; the real
outcome of its replay (the drain receives the entry and runs Log on it, in a
ready state) is observed only in the console output at replay time, and is
not routed back to the original caller. -/
theorem replay_outcome_fire_and_forget (msg : String) (s t : LoggerState)
    (hs : isReady s = false) (ht : isReady t = true) :
    SafeLog msg s = some (none, { s with chann := s.chann ++ [mkChan msg] }) ∧
    drainLoop [mkChan msg] t =
      some ([closedChan], { t with output := t.output ++ [printLine msg] }) := by
  constructor
  · exact SafeLog_not_ready msg s hs
  · have hd := drainLoop_good_ready [mkChan msg] t ht
      (by intro c hc; simp at hc; rw [hc]; exact mkChan_good msg)
    simpa [chanMsg_mkChan] using hd

/-- Witness for C7 at the start and post-Init states. -/
theorem replay_outcome_fire_and_forget_witness :
    (isReady initState = false ∧ isReady readyState = true) ∧
    (SafeLog "m" initState =
        some (none, { initState with chann := initState.chann ++ [mkChan "m"] }) ∧
     drainLoop [mkChan "m"] readyState =
        some ([closedChan], { readyState with output := readyState.output ++ [printLine "m"] })) :=
  ⟨⟨rfl, rfl⟩, replay_outcome_fire_and_forget "m" initState readyState rfl rfl⟩

/-- C8: the core logic never panics or blocks: SafeLog always returns (its
send goes into a fresh capacity-1 channel with no prior occupant, so it
cannot block or hit a closed channel) and preserves the queue invariant, and
Init on any state whose queued channels each hold exactly one value and are
open completes with every drained channel closed exactly once (each close
acts on a channel that was not closed before). -/
theorem no_panic_no_block :
    goodChans initState ∧
    (∀ msg s, ∃ r s', SafeLog msg s = some (r, s') ∧ (goodChans s → goodChans s')) ∧
    (∀ s, goodChans s → ∃ s', Init s = some s' ∧ ∀ c ∈ s'.chann, c.closed = true) := by
  refine ⟨by decide, ?_, ?_⟩
  · intro msg s
    by_cases hr : isReady s = true
    · refine ⟨(Log msg s).1, (Log msg s).2, ?_, ?_⟩
      · rw [SafeLog_ready msg s hr]
      · intro hg
        unfold goodChans at hg ⊢
        rw [Log_chann]
        exact hg
    · have hr' : isReady s = false := by simpa using hr
      refine ⟨none, { s with chann := s.chann ++ [mkChan msg] },
        SafeLog_not_ready msg s hr', ?_⟩
      intro hg
      unfold goodChans at hg ⊢
      intro c hc
      rcases List.mem_append.mp hc with h1 | h2
      · exact hg c h1
      · simp at h2
        rw [h2]
        exact mkChan_good msg
  · intro s hg
    have hd := drainLoop_good_ready s.chann
        { logger := { «instance» := "Logger" }, chann := s.chann,
          output := s.output ++ ["Init"] } rfl hg
    refine ⟨{ logger := { «instance» := "Logger" },
              chann := s.chann.map (fun _ => closedChan),
              output := (s.output ++ ["Init"]) ++ s.chann.map (fun c => printLine (chanMsg c)) },
            ?_, ?_⟩
    · unfold Init
      dsimp only
      rw [hd]
    · intro c hc
      obtain ⟨x, _, hx⟩ := List.mem_map.mp hc
      rw [← hx]
      rfl

/-- Witness for C8: from the start state, the queue invariant holds and Init
completes with every channel closed. -/
theorem no_panic_no_block_witness :
    goodChans initState ∧
    (∃ s', Init initState = some s' ∧ ∀ c ∈ s'.chann, c.closed = true) :=
  ⟨by decide, no_panic_no_block.2.2 initState (by decide)⟩

/-- C9 counterexample: the code takes no lock and no atomic around the global
chann, and its append decomposes into a read and a write of the slice; in the
interleaving where both concurrent SafeLog enqueues read before either
writes, both enqueues run to completion yet only the second entry survives —
a lost update, so the accesses are not mutually exclusive or atomic as the
claim states. -/
theorem unsynchronized_lost_update_counterexample :
    (raceRun "a" "b"
        [RaceAction.readA, RaceAction.readB, RaceAction.writeA, RaceAction.writeB]).chann
      = [mkChan "b"] ∧
    ¬ ((raceRun "a" "b"
        [RaceAction.readA, RaceAction.readB, RaceAction.writeA, RaceAction.writeB]).chann.length
      = 2) := by
  decide

/-- C9 amended: reads and writes of the shared state are unsynchronized — two
concurrent enqueues interleaved read-read-write-write lose one entry — and the
no-lost-update guarantee holds only when the accesses do not overlap: in any
serialized interleaving (one enqueue completing before the other starts, as
in the demo where one goroutine issues every call) all entries are preserved
in FIFO order. -/
theorem unsynchronized_race_amended (mA mB : String) (msgs : List String) :
    (raceRun mA mB
        [RaceAction.readA, RaceAction.readB, RaceAction.writeA, RaceAction.writeB]).chann
      = [mkChan mB] ∧
    (raceRun mA mB
        [RaceAction.readA, RaceAction.writeA, RaceAction.readB, RaceAction.writeB]).chann
      = [mkChan mA, mkChan mB] ∧
    runSafeLogs msgs initState = some { initState with chann := msgs.map mkChan } := by
  refine ⟨rfl, rfl, ?_⟩
  simpa [initState] using runSafeLogs_not_ready msgs initState rfl

/-- C10: SafeLog returns nil in every state and for every message: when ready
it delegates to Log, which in a ready state always prints and returns nil;
when not ready it enqueues and returns nil — so no caller of SafeLog ever
observes an error. -/
theorem safeLog_always_nil (msg : String) (s : LoggerState) :
    ∃ s', SafeLog msg s = some ((none : Option String), s') := by
  by_cases h : isReady s = true
  · refine ⟨(Log msg s).2, ?_⟩
    rw [SafeLog_ready msg s h, Log_ready msg s h]
  · have h' : isReady s = false := by simpa using h
    exact ⟨_, SafeLog_not_ready msg s h'⟩

end Postinit
